import Mathlib

/-!
Verification of the network-configuration resolver of an Atlassian MCP
integration layer (Jira/Confluence REST clients).

The repository contains several revisions of the same resolver logic:

* `src/src/utils/proxy.ts` (first revision): `getProxyConfig` with an
  npm-config fallback in the environment chains and target-scheme-based
  proxy-URL selection; its private `shouldBypassProxy` lacks the
  `!entry.startsWith('.')` guard on the parent-domain rule.
* `src/unnamed/part_000`: an earlier `getProxyConfig` with a single merged
  HTTPS/HTTP chain and a `proxy: false` flag.
* `src/unnamed/part_001` / `part_002` (identical logic): `getNetworkConfig`
  with SOCKS support, lower-case global fallbacks, an `<SVC>_SSL_VERIFY`
  check, and a `proxy: false` flag; its `shouldBypassProxy` carries the
  `!entry.startsWith('.')` guard.

The embedding below models each of these faithfully.  The process
environment is a function from variable names to optional string values;
JavaScript's `||` on possibly-undefined strings is `jsOr`/`jsOrStr`
(empty string is falsy); the WHATWG `new URL(u).hostname` call is an
oracle parameter of type `Option String` (`none` models a parse failure),
since URL parsing is platform-library behaviour, not repository code.
Agent constructors from the `http-proxy-agent` / `https-proxy-agent` /
`socks-proxy-agent` libraries are modelled as inert records of the
endpoint they were given and the effective `rejectUnauthorized` setting
(`true` models the library default of verifying TLS).
-/

/-- Decidable equality for `Except`, so that concrete client results can
be checked by `decide`. -/
instance exceptDecEq {e a : Type} [DecidableEq e] [DecidableEq a] : DecidableEq (Except e a)
  | .error x, .error y =>
    if h : x = y then .isTrue (by rw [h]) else .isFalse (fun hc => h (Except.error.inj hc))
  | .error _, .ok _ => .isFalse (fun hc => Except.noConfusion hc)
  | .ok _, .error _ => .isFalse (fun hc => Except.noConfusion hc)
  | .ok x, .ok y =>
    if h : x = y then .isTrue (by rw [h]) else .isFalse (fun hc => h (Except.ok.inj hc))

/-- A process environment: maps a variable name to its value, `none` when
the variable is unset (JavaScript `undefined`). -/
def Env : Type := String → Option String

/-- Update one environment binding (used to state that an operation does
not depend on a given variable). -/
def setEnv (env : Env) (k : String) (v : Option String) : Env :=
  fun k2 => if k2 = k then v else env k2

/-- JavaScript string truthiness for a possibly-undefined value:
`undefined` and the empty string are falsy. -/
def truthy : Option String → Bool
  | none => false
  | some s => s != ""

/-- JavaScript `a || b` where `a : string | undefined` and the result is
again possibly undefined. -/
def jsOr (a b : Option String) : Option String :=
  if truthy a then a else b

/-- JavaScript `a || d` where `a : string | undefined` and `d` is a plain
string default (as in `process.env.X || ''` chains). -/
def jsOrStr (a : Option String) (d : String) : String :=
  match a with
  | none => d
  | some s => if s = "" then d else s

/-- JavaScript `String.prototype.endsWith`, modelled on the character
list of the strings. -/
def strEndsWith (s suffixStr : String) : Bool :=
  suffixStr.data.isSuffixOf s.data

/-- JavaScript `String.prototype.startsWith`, modelled on the character
list of the strings. -/
def strStartsWith (s prefixStr : String) : Bool :=
  prefixStr.data.isPrefixOf s.data

/-- JavaScript `String.prototype.toLowerCase` (ASCII range, which covers
hostnames and NO_PROXY entries). -/
def lowerStr (s : String) : String :=
  String.mk (s.data.map Char.toLower)

/-- JavaScript `String.prototype.toUpperCase` (ASCII range), used for the
service-name env-var prefixes. -/
def upperStr (s : String) : String :=
  String.mk (s.data.map Char.toUpper)

/-- The whitespace test of JavaScript `String.prototype.trim` restricted
to the characters that occur in environment values. -/
def isJsSpace (c : Char) : Bool :=
  c = ' ' || c = '\t' || c = '\n' || c = '\r'

/-- JavaScript `String.prototype.trim`. -/
def trimStr (s : String) : String :=
  String.mk (((s.data.dropWhile isJsSpace).reverse.dropWhile isJsSpace).reverse)

/-- Split a character list at commas; JavaScript `split(',')` yields
`['']` on the empty string, hence the base case. -/
def splitCommaChars : List Char → List (List Char)
  | [] => [[]]
  | c :: rest =>
    let r := splitCommaChars rest
    if c = ',' then [] :: r
    else
      match r with
      | [] => [[c]]
      | h :: t => (c :: h) :: t

/-- JavaScript `String.prototype.split(',')`. -/
def splitCommas (s : String) : List String :=
  (splitCommaChars s.data).map String.mk

/-- One entry test of `shouldBypassProxy` from `part_001`/`part_002`
(the loop body over the split, trimmed, lower-cased entries; an empty
entry is skipped, i.e. never matches). -/
def bypassEntry (hostname entry : String) : Bool :=
  if entry = "" then false
  else if entry = "*" then true
  else if hostname = entry then true
  else if strStartsWith entry "." && strEndsWith hostname entry then true
  else if !strStartsWith entry "." && strEndsWith hostname ("." ++ entry) then true
  else false

/-- `shouldBypassProxy` from `part_001`/`part_002`: `noProxy` may be
absent (`undefined`), the hostname oracle is `none` when `new URL`
throws. -/
def shouldBypassProxy (hostname? : Option String) (noProxy : Option String) : Bool :=
  match noProxy with
  | none => false
  | some np =>
    if np = "" then false
    else
      match hostname? with
      | none => false
      | some h =>
        let hostname := lowerStr h
        let entries := (splitCommas np).map (fun e => lowerStr (trimStr e))
        entries.any (bypassEntry hostname)

/-- One entry test of `shouldBypassProxy` from the first revision of
`src/src/utils/proxy.ts`: identical to `bypassEntry` except that the
parent-domain rule is not guarded by `!entry.startsWith('.')`. -/
def bypassEntryV1 (hostname entry : String) : Bool :=
  if entry = "" then false
  else if entry = "*" then true
  else if hostname = entry then true
  else if strStartsWith entry "." && strEndsWith hostname entry then true
  else if strEndsWith hostname ("." ++ entry) then true
  else false

/-- `shouldBypassProxy` from the first revision of `src/src/utils/proxy.ts`
(there `noProxy` is a plain string, already defaulted to `''`). -/
def shouldBypassProxyV1 (hostname? : Option String) (noProxy : String) : Bool :=
  if noProxy = "" then false
  else
    match hostname? with
    | none => false
    | some h =>
      let lowerHost := lowerStr h
      let entries := (splitCommas noProxy).map (fun e => lowerStr (trimStr e))
      entries.any (bypassEntryV1 lowerHost)

/-- A constructed outbound agent.  `rejectUnauthorized = true` models the
library default of verifying TLS certificates. -/
inductive Agent : Type
  | socks (endpoint : String) (rejectUnauthorized : Bool)
  | httpP (endpoint : String)
  | httpsP (endpoint : String) (rejectUnauthorized : Bool)
  | directHttps (rejectUnauthorized : Bool)
deriving DecidableEq, Repr

/-- The `ClientNetworkConfig` of `part_001`/`part_002` (and reused for the
`part_000` `ProxyConfig`, which has the same three fields): optional http
and https agents plus the axios `proxy` field, which the code either
leaves undefined (`none`) or sets to `false` (`some false`). -/
structure ClientNetworkConfig : Type where
  httpAgent : Option Agent := none
  httpsAgent : Option Agent := none
  proxy : Option Bool := none
deriving DecidableEq, Repr

/-- The `ProxyConfig` of `src/src/utils/proxy.ts` (first revision): no
`proxy` field, the callers pass `proxy: false` to axios themselves. -/
structure ProxyConfig : Type where
  httpAgent : Option Agent := none
  httpsAgent : Option Agent := none
deriving DecidableEq, Repr

/-- Is this agent a SOCKS agent? -/
def Agent.isSocks : Agent → Bool
  | .socks _ _ => true
  | _ => false

/-- Is this agent an HTTP or HTTPS proxy agent (as opposed to a SOCKS
agent or a direct `https.Agent` TLS override)? -/
def Agent.isPlainProxy : Agent → Bool
  | .httpP _ => true
  | .httpsP _ _ => true
  | _ => false

/-- Is this agent any kind of proxy agent (SOCKS or HTTP(S))? -/
def Agent.isProxyAgent : Agent → Bool
  | .directHttps _ => false
  | _ => true

/-- The endpoint string an agent constructor was given is non-empty
(vacuously true for the direct TLS-override agent, which takes none). -/
def Agent.endpointNonempty : Agent → Bool
  | .socks u _ => u != ""
  | .httpP u => u != ""
  | .httpsP u _ => u != ""
  | .directHttps _ => true

/-- Does an optional agent slot satisfy a predicate? -/
def optAgent (p : Agent → Bool) : Option Agent → Bool
  | none => false
  | some a => p a

/-- `getNetworkConfig` env chain for the HTTP proxy endpoint
(`part_001`/`part_002` line: service-scoped, then `HTTP_PROXY`, then
`http_proxy`). -/
def resolveHttpProxy (env : Env) (pfx : String) : Option String :=
  jsOr (env (pfx ++ "_HTTP_PROXY")) (jsOr (env "HTTP_PROXY") (env "http_proxy"))

/-- `getNetworkConfig` env chain for the HTTPS proxy endpoint. -/
def resolveHttpsProxy (env : Env) (pfx : String) : Option String :=
  jsOr (env (pfx ++ "_HTTPS_PROXY")) (jsOr (env "HTTPS_PROXY") (env "https_proxy"))

/-- `getNetworkConfig` env chain for the SOCKS proxy endpoint. -/
def resolveSocksProxy (env : Env) (pfx : String) : Option String :=
  jsOr (env (pfx ++ "_SOCKS_PROXY")) (jsOr (env "SOCKS_PROXY") (env "socks_proxy"))

/-- `getNetworkConfig` env chain for the NO_PROXY list. -/
def resolveNoProxy (env : Env) (pfx : String) : Option String :=
  jsOr (env (pfx ++ "_NO_PROXY")) (jsOr (env "NO_PROXY") (env "no_proxy"))

/-- The SSL-verification setting of `getNetworkConfig`:
`process.env[`PFX_SSL_VERIFY`] !== 'false'` (the same expression the
clients in `part_004`/`confluence.ts` use with their hard-coded prefix). -/
def sslVerifySetting (env : Env) (pfx : String) : Bool :=
  !(env (pfx ++ "_SSL_VERIFY") == some "false")

/-- `getNetworkConfig` from `part_001`/`part_002`.  `hostname?` is the
result of `new URL(baseUrl).hostname` (`none` when parsing throws),
supplied by the caller of the embedding. -/
def getNetworkConfig (env : Env) (service : String) (hostname? : Option String) :
    ClientNetworkConfig :=
  let pfx := upperStr service
  let sslVerify := sslVerifySetting env pfx
  let httpProxy := resolveHttpProxy env pfx
  let httpsProxy := resolveHttpsProxy env pfx
  let socksProxy := resolveSocksProxy env pfx
  let noProxy := resolveNoProxy env pfx
  let useProxy := !(shouldBypassProxy hostname? noProxy)
  if useProxy && truthy socksProxy then
    let agent := Agent.socks (socksProxy.getD "") sslVerify
    { httpAgent := some agent, httpsAgent := some agent, proxy := some false }
  else if useProxy && (truthy httpsProxy || truthy httpProxy) then
    let httpAgent := if truthy httpProxy then some (Agent.httpP (httpProxy.getD "")) else none
    let proxyForHttps := jsOr httpsProxy httpProxy
    let httpsAgent :=
      if truthy proxyForHttps then some (Agent.httpsP (proxyForHttps.getD "") sslVerify)
      else none
    { httpAgent := httpAgent, httpsAgent := httpsAgent, proxy := some false }
  else if !sslVerify then
    { httpsAgent := some (Agent.directHttps false) }
  else
    {}

/-- `getProxyConfig` env chain for the HTTP proxy endpoint in the first
revision of `src/src/utils/proxy.ts`: service-scoped, then `HTTP_PROXY`,
then `npm_config_proxy`, then `''` (the lower-case `http_proxy` is not
consulted in this revision). -/
def resolveHttpProxyV1 (env : Env) (pfx : String) : String :=
  jsOrStr (env (pfx ++ "_HTTP_PROXY")) (jsOrStr (env "HTTP_PROXY") (jsOrStr (env "npm_config_proxy") ""))

/-- `getProxyConfig` (`proxy.ts` rev 1) env chain for the HTTPS proxy
endpoint. -/
def resolveHttpsProxyV1 (env : Env) (pfx : String) : String :=
  jsOrStr (env (pfx ++ "_HTTPS_PROXY")) (jsOrStr (env "HTTPS_PROXY") (jsOrStr (env "npm_config_https_proxy") ""))

/-- `getProxyConfig` (`proxy.ts` rev 1) env chain for the NO_PROXY list. -/
def resolveNoProxyV1 (env : Env) (pfx : String) : String :=
  jsOrStr (env (pfx ++ "_NO_PROXY")) (jsOrStr (env "NO_PROXY") (jsOrStr (env "npm_config_noproxy") ""))

/-- `getProxyConfig` from the first revision of `src/src/utils/proxy.ts`.
`targetUrl` is the base URL (used for its `startsWith('https')` scheme
test), `hostname?` the `new URL(targetUrl).hostname` oracle. -/
def getProxyConfig (env : Env) (service : String) (targetUrl : String)
    (hostname? : Option String) (sslVerify : Bool) : ProxyConfig :=
  let pfx := upperStr service
  let httpProxy := resolveHttpProxyV1 env pfx
  let httpsProxy := resolveHttpsProxyV1 env pfx
  let noProxy := resolveNoProxyV1 env pfx
  let isHttps := strStartsWith targetUrl "https"
  if shouldBypassProxyV1 hostname? noProxy then
    if !sslVerify then { httpsAgent := some (Agent.directHttps false) } else {}
  else
    let proxyUrl :=
      if isHttps then (if httpsProxy != "" then httpsProxy else httpProxy)
      else (if httpProxy != "" then httpProxy else httpsProxy)
    if proxyUrl = "" then
      if !sslVerify then { httpsAgent := some (Agent.directHttps false) } else {}
    else
      let httpAgent :=
        if !isHttps && httpProxy != "" then some (Agent.httpP httpProxy) else none
      let httpsAgent :=
        if isHttps then some (Agent.httpsP proxyUrl sslVerify) else none
      { httpAgent := httpAgent, httpsAgent := httpsAgent }

/-- The merged HTTPS/HTTP endpoint chain of the `part_000`
`getProxyConfig`: service-scoped HTTPS, global upper/lower HTTPS, then
service-scoped HTTP, global upper/lower HTTP (the service name is passed
already upper-cased in that revision). -/
def resolveProxyV0 (env : Env) (service : String) : Option String :=
  jsOr (env (service ++ "_HTTPS_PROXY"))
    (jsOr (env "HTTPS_PROXY")
      (jsOr (env "https_proxy")
        (jsOr (env (service ++ "_HTTP_PROXY"))
          (jsOr (env "HTTP_PROXY") (env "http_proxy")))))

/-- `getProxyConfig` from `part_000`: either no proxy (empty config, axios
defaults) or both agents built from the one merged endpoint plus
`proxy: false`.  The `HttpsProxyAgent` there is constructed without
options, i.e. with the TLS-verifying default. -/
def getProxyConfigV0 (env : Env) (service : String) : ClientNetworkConfig :=
  match resolveProxyV0 env service with
  | none => {}
  | some u =>
    if u = "" then {}
    else
      { httpAgent := some (Agent.httpP u)
        httpsAgent := some (Agent.httpsP u true)
        proxy := some false }

/-- Spec-side reading (design note of the spec): an ordered list of
candidate environment lookups evaluated first-match-wins, where a match
is a truthy value; the last candidate is returned as-is (mirroring a
JavaScript `||` chain). -/
def firstTruthy : List (Option String) → Option String
  | [] => none
  | [x] => x
  | x :: xs => if truthy x then x else firstTruthy xs

/-- Claim-side reading of C3's words: "first non-empty value wins" over
the ordered candidate list. -/
def claimFirstNonEmpty : List (Option String) → Option String
  | [] => none
  | x :: xs =>
    match x with
    | some s => if s != "" then some s else claimFirstNonEmpty xs
    | none => claimFirstNonEmpty xs

/-- Claim-side reading of C2's matching rules for one processed (trimmed,
lower-cased, non-empty) NO_PROXY entry against the lower-cased target
hostname. -/
def claimEntryMatch (hostname entry : String) : Bool :=
  entry == "*" ||
  hostname == entry ||
  (strStartsWith entry "." && strEndsWith hostname entry) ||
  (!strStartsWith entry "." && strEndsWith hostname ("." ++ entry))

/-- Build an environment from an association list (unlisted variables are
unset). -/
def envOf (l : List (String × String)) : Env :=
  fun k => (l.find? (fun p => p.1 == k)).map (fun p => p.2)

/-- The empty environment. -/
def envNone : Env := fun _ => none

/-! ### Client operations (`part_004` JiraClient, `confluence.ts` ConfluenceClient)

Each method is modelled as a function of the process environment and its
arguments, returning either the error message it throws before any HTTP
traffic, or a description of the single HTTP request it would issue (the
JSON request bodies are abstracted to their leaf string fields; optional
fields that no claim touches are omitted). -/

/-- The HTTP request a client method is about to issue: verb, path, and
the key string parameters / body fields. -/
structure ApiRequest : Type where
  method : String
  path : String
  params : List (String × String) := []
deriving DecidableEq, Repr

/-- The character class of the clients' `VALID_KEY_PATTERN` regex
`^[A-Za-z0-9_-]+$`. -/
def validKeyChar (c : Char) : Bool :=
  c.isAlphanum || c = '-' || c = '_'

/-- `validateKey` of both clients: the key must be non-empty and consist
of alphanumerics, hyphens and underscores. -/
def validKey (s : String) : Bool :=
  s != "" && s.data.all validKeyChar

/-- The error message `validateKey` throws, parameterised by the label. -/
def invalidKeyMsg (label : String) : String :=
  "Invalid " ++ label ++ ": only alphanumeric characters, hyphens, and underscores are allowed"

/-- Quote and join filter keys as the clients do:
`keys.map(k => `"${k}"`).join(',')`. -/
def quoteKeys (keys : List String) : String :=
  String.intercalate "," (keys.map (fun k => "\"" ++ k ++ "\""))

/-- The read-only-mode test `process.env.READ_ONLY_MODE === 'true'`. -/
def readOnlyMode (env : Env) : Bool :=
  env "READ_ONLY_MODE" == some "true"

/-- The JQL actually sent by `JiraClient.searchIssues`: wrapped in a
project filter when `JIRA_PROJECTS_FILTER` is set (a truthy value), with
each filter key validated. -/
def jiraSearchJql (env : Env) (jql : String) : Except String String :=
  match env "JIRA_PROJECTS_FILTER" with
  | none => .ok jql
  | some pf =>
    if pf = "" then .ok jql
    else
      let keys := (splitCommas pf).map trimStr
      if keys.all validKey then
        .ok ("project in (" ++ quoteKeys keys ++ ") AND (" ++ jql ++ ")")
      else .error (invalidKeyMsg "project filter key")

/-- `JiraClient.searchIssues` (read operation; the optional `fields`
parameter is omitted). -/
def jiraSearchIssues (env : Env) (jql : String) (maxResults : Nat) : Except String ApiRequest :=
  (jiraSearchJql env jql).map (fun q =>
    { method := "GET", path := "/rest/api/2/search"
      params := [("jql", q), ("maxResults", toString maxResults)] })

/-- `JiraClient.getIssue` (read operation; `fields`/`expand` omitted). -/
def jiraGetIssue (_env : Env) (issueKey : String) : ApiRequest :=
  { method := "GET", path := "/rest/api/2/issue/" ++ issueKey }

/-- `JiraClient.createIssue` (mutating; gated on read-only mode before the
POST). -/
def jiraCreateIssue (env : Env) (projectKey issueType summary : String) :
    Except String ApiRequest :=
  if readOnlyMode env then .error "Cannot create issue: running in read-only mode"
  else .ok { method := "POST", path := "/rest/api/2/issue"
             params := [("project", projectKey), ("issuetype", issueType), ("summary", summary)] }

/-- `JiraClient.updateIssue` (mutating; gated on read-only mode before the
PUT; the free-form `fields` record is abstracted away). -/
def jiraUpdateIssue (env : Env) (issueKey : String) : Except String ApiRequest :=
  if readOnlyMode env then .error "Cannot update issue: running in read-only mode"
  else .ok { method := "PUT", path := "/rest/api/2/issue/" ++ issueKey }

/-- `JiraClient.addComment` (mutating; gated on read-only mode before the
POST). -/
def jiraAddComment (env : Env) (issueKey commentBody : String) : Except String ApiRequest :=
  if readOnlyMode env then .error "Cannot add comment: running in read-only mode"
  else .ok { method := "POST", path := "/rest/api/2/issue/" ++ issueKey ++ "/comment"
             params := [("body", commentBody)] }

/-- `JiraClient.getProjects` (read operation). -/
def jiraGetProjects (_env : Env) : ApiRequest :=
  { method := "GET", path := "/rest/api/2/project" }

/-- The CQL actually sent by `ConfluenceClient.search`: scoped to a space
when `spaceKey` is truthy, else to `CONFLUENCE_SPACES_FILTER` when that is
set, validating the keys in either case. -/
def confluenceSearchCql (env : Env) (query : String) (spaceKey : Option String) :
    Except String String :=
  if truthy spaceKey then
    let sk := spaceKey.getD ""
    if validKey sk then .ok ("space = \"" ++ sk ++ "\" AND " ++ query)
    else .error (invalidKeyMsg "space key")
  else
    match env "CONFLUENCE_SPACES_FILTER" with
    | none => .ok query
    | some sf =>
      if sf = "" then .ok query
      else
        let keys := (splitCommas sf).map trimStr
        if keys.all validKey then
          .ok ("space in (" ++ quoteKeys keys ++ ") AND " ++ query)
        else .error (invalidKeyMsg "space filter key")

/-- `ConfluenceClient.search` (read operation). -/
def confluenceSearch (env : Env) (query : String) (spaceKey : Option String) (lim : Nat) :
    Except String ApiRequest :=
  (confluenceSearchCql env query spaceKey).map (fun cql =>
    { method := "GET", path := "/rest/api/content/search"
      params := [("cql", cql), ("limit", toString lim)] })

/-- `ConfluenceClient.getPage` (read operation; `expand` omitted). -/
def confluenceGetPage (_env : Env) (pageId : String) : ApiRequest :=
  { method := "GET", path := "/rest/api/content/" ++ pageId }

/-- `ConfluenceClient.createPage` (mutating; gated on read-only mode
before the POST; `parentId` omitted). -/
def confluenceCreatePage (env : Env) (spaceKey title content : String) :
    Except String ApiRequest :=
  if readOnlyMode env then .error "Cannot create page: running in read-only mode"
  else .ok { method := "POST", path := "/rest/api/content"
             params := [("space", spaceKey), ("title", title), ("body", content)] }

/-- `ConfluenceClient.updatePage` (mutating; gated on read-only mode
before the PUT; the body carries `version + 1`). -/
def confluenceUpdatePage (env : Env) (pageId title content : String) (version : Nat) :
    Except String ApiRequest :=
  if readOnlyMode env then .error "Cannot update page: running in read-only mode"
  else .ok { method := "PUT", path := "/rest/api/content/" ++ pageId
             params := [("title", title), ("body", content), ("version", toString (version + 1))] }

/-- `ConfluenceClient.getSpaces` (read operation). -/
def confluenceGetSpaces (_env : Env) (lim start : Nat) : ApiRequest :=
  { method := "GET", path := "/rest/api/space"
    params := [("limit", toString lim), ("start", toString start)] }

/-! ### Concrete environments for witnesses and counterexamples -/

/-- SOCKS and HTTPS endpoints both set for the jira service (C1). -/
def envSocksBoth : Env :=
  envOf [("JIRA_SOCKS_PROXY", "socks5://sock.example:1080"),
         ("JIRA_HTTPS_PROXY", "http://hp.example:8080")]

/-- Only the lower-case and npm-config HTTP endpoints set (C3). -/
def envLowerNpm : Env :=
  envOf [("http_proxy", "http://lower.example:3128"),
         ("npm_config_proxy", "http://npm.example:3128")]

/-- Only the npm-config HTTP endpoint set (C3). -/
def envNpmOnly : Env :=
  envOf [("npm_config_proxy", "http://npm.example:3128")]

/-- Only the global upper-case HTTPS endpoint set (C3 witness, C4). -/
def envHttpsOnly : Env :=
  envOf [("HTTPS_PROXY", "http://hp.example:8080")]

/-- Only the global upper-case HTTP endpoint set (C4 witness). -/
def envHttpOnly : Env :=
  envOf [("HTTP_PROXY", "http://up.example:8080")]

/-- A bypassed target with a configured HTTPS proxy (C5). -/
def envBypass : Env :=
  envOf [("JIRA_NO_PROXY", ".internal.co"),
         ("JIRA_HTTPS_PROXY", "http://hp.example:8080")]

/-- A malformed (non-empty) global HTTP proxy endpoint (C6). -/
def envMalformed : Env :=
  envOf [("HTTP_PROXY", "not a url")]

/-- SSL verification disabled for jira, nothing else set (C7, C9). -/
def envSslOff : Env :=
  envOf [("JIRA_SSL_VERIFY", "false")]

/-- Read-only mode enabled (C10). -/
def envReadOnly : Env :=
  envOf [("READ_ONLY_MODE", "true")]

/-- Does the configuration contain a SOCKS agent in either slot? -/
def ClientNetworkConfig.hasSocks (c : ClientNetworkConfig) : Bool :=
  optAgent Agent.isSocks c.httpAgent || optAgent Agent.isSocks c.httpsAgent

/-- Does the configuration contain an HTTP(S) proxy agent in either
slot? -/
def ClientNetworkConfig.hasPlainProxy (c : ClientNetworkConfig) : Bool :=
  optAgent Agent.isPlainProxy c.httpAgent || optAgent Agent.isPlainProxy c.httpsAgent

/-- Does the configuration contain any proxy agent (SOCKS or HTTP(S)) in
either slot? -/
def ClientNetworkConfig.hasProxyAgent (c : ClientNetworkConfig) : Bool :=
  optAgent Agent.isProxyAgent c.httpAgent || optAgent Agent.isProxyAgent c.httpsAgent

/-- Every agent in the configuration was constructed from a non-empty
endpoint string. -/
def ClientNetworkConfig.endpointsNonempty (c : ClientNetworkConfig) : Bool :=
  (match c.httpAgent with | none => true | some a => a.endpointNonempty) &&
  (match c.httpsAgent with | none => true | some a => a.endpointNonempty)

/-- Every agent in the (two-field) configuration was constructed from a
non-empty endpoint string. -/
def ProxyConfig.endpointsNonempty (c : ProxyConfig) : Bool :=
  (match c.httpAgent with | none => true | some a => a.endpointNonempty) &&
  (match c.httpsAgent with | none => true | some a => a.endpointNonempty)

/-- Does the (two-field) configuration contain any proxy agent? -/
def ProxyConfig.hasProxyAgent (c : ProxyConfig) : Bool :=
  optAgent Agent.isProxyAgent c.httpAgent || optAgent Agent.isProxyAgent c.httpsAgent

/-! ### Helper lemmas -/

/-- A truthy optional string holds a non-empty value. -/
theorem truthy_getD_ne (o : Option String) (h : truthy o = true) : o.getD "" ≠ "" := by
  cases o with
  | none => simp [truthy] at h
  | some s => simpa [truthy, bne_iff_ne] using h

/-- The per-entry test of the embedded bypass matcher agrees with the
claim-side per-entry match on non-empty entries (and skips empty ones). -/
theorem bypassEntry_eq (h e : String) :
    bypassEntry h e = (e != "" && claimEntryMatch h e) := by
  by_cases h1 : e = ""
  · simp [bypassEntry, h1]
  · by_cases h2 : e = "*"
    · simp [bypassEntry, claimEntryMatch, h1, h2]
    · by_cases h3 : h = e
      · simp [bypassEntry, claimEntryMatch, h1, h2, h3]
      · cases hA : strStartsWith e "." <;>
          cases hB : strEndsWith h e <;>
            cases hC : strEndsWith h ("." ++ e) <;>
              simp [bypassEntry, claimEntryMatch, h1, h2, h3, hA, hB, hC]

/-- The matcher is the disjunction of the per-entry tests over the
processed entry list (also for an empty NO_PROXY string, where the early
return and the empty-entry skip agree). -/
theorem shouldBypass_any (host np : String) :
    shouldBypassProxy (some host) (some np) =
      ((splitCommas np).map (fun e => lowerStr (trimStr e))).any (bypassEntry (lowerStr host)) := by
  by_cases h : np = ""
  · subst h
    have hl : ((splitCommas "").map (fun e => lowerStr (trimStr e))) = [""] := by decide
    rw [hl]
    simp [shouldBypassProxy, bypassEntry]
  · simp [shouldBypassProxy, h]

/-! ### Claim theorems: the bypass matcher -/

/-- C2: for every target hostname (of a syntactically valid URL) and every
NO_PROXY string, `shouldBypassProxy` returns true iff some comma-separated
entry — trimmed, lower-cased, empty entries skipped — is `*`, equals the
hostname case-insensitively, is a dotted suffix of the hostname, or is an
undotted parent domain of the hostname; the per-entry tests are pure, so
the in-order first-match short-circuit of the code returns true exactly
when such an entry exists.  The spec's four concrete examples are included
as conjuncts. -/
theorem C2_bypass_matches_spec :
    (∀ host np : String,
      shouldBypassProxy (some host) (some np) = true ↔
        ∃ e ∈ (splitCommas np).map (fun x => lowerStr (trimStr x)),
          e ≠ "" ∧ claimEntryMatch (lowerStr host) e = true) ∧
    shouldBypassProxy (some "api.example.com") (some ".example.com") = true ∧
    shouldBypassProxy (some "example.com") (some ".example.com") = false ∧
    shouldBypassProxy (some "api.example.com") (some "example.com") = true ∧
    shouldBypassProxy (some "example.com") (some "example.com") = true := by
  refine ⟨?_, by decide, by decide, by decide, by decide⟩
  intro host np
  rw [shouldBypass_any, List.any_eq_true]
  simp only [bypassEntry_eq, Bool.and_eq_true, bne_iff_ne, ne_eq]

/-- C8: a target whose URL fails to parse (hostname oracle `none`) never
bypasses, whatever the NO_PROXY list; and an absent or empty NO_PROXY list
never bypasses, whatever the target.  Both matcher revisions are covered. -/
theorem C8_fail_open_defaults :
    (∀ noProxy : Option String, shouldBypassProxy none noProxy = false) ∧
    (∀ noProxy : String, shouldBypassProxyV1 none noProxy = false) ∧
    (∀ hostname? : Option String,
      shouldBypassProxy hostname? none = false ∧
      shouldBypassProxy hostname? (some "") = false ∧
      shouldBypassProxyV1 hostname? "" = false) := by
  refine ⟨?_, ?_, ?_⟩
  · intro np
    cases np with
    | none => rfl
    | some s => by_cases h : s = "" <;> simp [shouldBypassProxy, h]
  · intro np
    by_cases h : np = "" <;> simp [shouldBypassProxyV1, h]
  · intro hh
    exact ⟨rfl, rfl, rfl⟩

example : shouldBypassProxy (some "api.example.com") (some ".example.com") = true := by decide
example : shouldBypassProxy (some "example.com") (some ".example.com") = false := by decide
example : shouldBypassProxy (some "api.example.com") (some "example.com") = true := by decide
example : shouldBypassProxy (some "example.com") (some "example.com") = true := by decide
example : shouldBypassProxy (some "whatever.host") (some "*") = true := by decide
example : shouldBypassProxy none (some "example.com") = false := by decide
example : shouldBypassProxy (some "Api.Example.COM") (some " .EXAMPLE.com ,") = true := by decide

/-! ### Claim theorems: the resolvers and the clients -/

/-- Branch lemma: with a truthy SOCKS endpoint and no bypass,
`getNetworkConfig` returns the single shared SOCKS agent plus
`proxy: false`. -/
theorem getNetworkConfig_socks (env : Env) (service : String) (hostname? : Option String)
    (hs : truthy (resolveSocksProxy env (upperStr service)) = true)
    (hb : shouldBypassProxy hostname? (resolveNoProxy env (upperStr service)) = false) :
    getNetworkConfig env service hostname? =
      { httpAgent := some (Agent.socks ((resolveSocksProxy env (upperStr service)).getD "")
          (sslVerifySetting env (upperStr service)))
        httpsAgent := some (Agent.socks ((resolveSocksProxy env (upperStr service)).getD "")
          (sslVerifySetting env (upperStr service)))
        proxy := some false } := by
  simp [getNetworkConfig, hs, hb]

/-- Branch lemma: with no truthy SOCKS endpoint, no bypass and some
truthy HTTP(S) endpoint, `getNetworkConfig` builds the HTTP and HTTPS
proxy agents plus `proxy: false`. -/
theorem getNetworkConfig_plainBranch (env : Env) (service : String) (hostname? : Option String)
    (hs : truthy (resolveSocksProxy env (upperStr service)) = false)
    (hb : shouldBypassProxy hostname? (resolveNoProxy env (upperStr service)) = false)
    (hp : (truthy (resolveHttpsProxy env (upperStr service))
            || truthy (resolveHttpProxy env (upperStr service))) = true) :
    getNetworkConfig env service hostname? =
      { httpAgent :=
          if truthy (resolveHttpProxy env (upperStr service)) then
            some (Agent.httpP ((resolveHttpProxy env (upperStr service)).getD ""))
          else none
        httpsAgent :=
          if truthy (jsOr (resolveHttpsProxy env (upperStr service)) (resolveHttpProxy env (upperStr service))) then
            some (Agent.httpsP ((jsOr (resolveHttpsProxy env (upperStr service)) (resolveHttpProxy env (upperStr service))).getD "")
              (sslVerifySetting env (upperStr service)))
          else none
        proxy := some false } := by
  simp [getNetworkConfig, hs, hb, hp]

/-- Branch lemma: when neither proxy branch fires, `getNetworkConfig`
returns either the empty configuration or just the TLS-disable direct
agent. -/
theorem getNetworkConfig_noProxyBranch (env : Env) (service : String) (hostname? : Option String)
    (hs : (!(shouldBypassProxy hostname? (resolveNoProxy env (upperStr service)))
            && truthy (resolveSocksProxy env (upperStr service))) = false)
    (hp : (!(shouldBypassProxy hostname? (resolveNoProxy env (upperStr service)))
            && (truthy (resolveHttpsProxy env (upperStr service))
                || truthy (resolveHttpProxy env (upperStr service)))) = false) :
    getNetworkConfig env service hostname? =
      (if sslVerifySetting env (upperStr service) then {}
       else { httpsAgent := some (Agent.directHttps false) }) := by
  simp only [getNetworkConfig, hs, hp]
  by_cases h : sslVerifySetting env (upperStr service) <;> simp [h]

/-- A falsy optional string defaults to the empty string. -/
theorem not_truthy_getD (o : Option String) (h : truthy o = false) : o.getD "" = "" := by
  cases o with
  | none => rfl
  | some s => simpa [truthy, bne_iff_ne] using h

/-- `jsOrStr` selects the value when truthy, else the default. -/
theorem jsOrStr_eq (a : Option String) (d : String) :
    jsOrStr a d = if truthy a then a.getD "" else d := by
  cases a with
  | none => simp [jsOrStr, truthy]
  | some s => by_cases hs : s = "" <;> simp [jsOrStr, truthy, hs]

/-- A three-element JavaScript `||` chain is first-truthy-wins. -/
theorem jsOr_chain3 (a b c : Option String) :
    jsOr a (jsOr b c) = firstTruthy [a, b, c] := by
  by_cases ha : truthy a <;> by_cases hb : truthy b <;>
    simp [jsOr, firstTruthy, ha, hb]

/-- A six-element JavaScript `||` chain is first-truthy-wins. -/
theorem jsOr_chain6 (a b c d e f : Option String) :
    jsOr a (jsOr b (jsOr c (jsOr d (jsOr e f)))) = firstTruthy [a, b, c, d, e, f] := by
  by_cases ha : truthy a <;> by_cases hb : truthy b <;> by_cases hc : truthy c <;>
    by_cases hd : truthy d <;> by_cases he : truthy e <;>
      simp [jsOr, firstTruthy, ha, hb, hc, hd, he]

/-- A three-element `||` chain ending in `''` is first-truthy-wins with
empty-string default. -/
theorem jsOrStr_chain3 (a b c : Option String) :
    jsOrStr a (jsOrStr b (jsOrStr c "")) = (firstTruthy [a, b, c]).getD "" := by
  rw [jsOrStr_eq, jsOrStr_eq, jsOrStr_eq]
  by_cases ha : truthy a <;> by_cases hb : truthy b <;> by_cases hc : truthy c <;>
    simp [firstTruthy, ha, hb, hc, not_truthy_getD]

/-- C1: the returned configuration never mixes a SOCKS agent with
HTTP/HTTPS proxy agents, and whenever a SOCKS endpoint is configured (at
any precedence level of its chain) and the target is not bypassed, both
agent slots are the single SOCKS agent and `proxy: false` is set — any
configured HTTPS/HTTP endpoints are ignored. -/
theorem C1_socks_exclusive (env : Env) (service : String) (hostname? : Option String) :
    ((getNetworkConfig env service hostname?).hasSocks
       && (getNetworkConfig env service hostname?).hasPlainProxy) = false ∧
    (truthy (resolveSocksProxy env (upperStr service)) = true →
     shouldBypassProxy hostname? (resolveNoProxy env (upperStr service)) = false →
     getNetworkConfig env service hostname? =
       { httpAgent := some (Agent.socks ((resolveSocksProxy env (upperStr service)).getD "")
           (sslVerifySetting env (upperStr service)))
         httpsAgent := some (Agent.socks ((resolveSocksProxy env (upperStr service)).getD "")
           (sslVerifySetting env (upperStr service)))
         proxy := some false }) := by
  constructor
  · simp only [getNetworkConfig]
    split
    · simp [ClientNetworkConfig.hasSocks, ClientNetworkConfig.hasPlainProxy, optAgent,
        Agent.isSocks, Agent.isPlainProxy]
    · split
      · by_cases hhp : truthy (resolveHttpProxy env (upperStr service)) <;>
          by_cases hhps : truthy (jsOr (resolveHttpsProxy env (upperStr service))
            (resolveHttpProxy env (upperStr service))) <;>
            simp [ClientNetworkConfig.hasSocks, ClientNetworkConfig.hasPlainProxy, optAgent,
              Agent.isSocks, Agent.isPlainProxy, hhp, hhps]
      · split <;> simp [ClientNetworkConfig.hasSocks, ClientNetworkConfig.hasPlainProxy,
          optAgent, Agent.isSocks, Agent.isPlainProxy]
  · intro hs hb
    exact getNetworkConfig_socks env service hostname? hs hb

/-- Witness for C1 at an environment with both `JIRA_SOCKS_PROXY` and
`JIRA_HTTPS_PROXY` set and a non-bypassed target. -/
theorem C1_witness :
    truthy (resolveSocksProxy envSocksBoth "JIRA") = true ∧
    shouldBypassProxy (some "jira.example.com") (resolveNoProxy envSocksBoth "JIRA") = false ∧
    truthy (resolveHttpsProxy envSocksBoth "JIRA") = true ∧
    getNetworkConfig envSocksBoth "jira" (some "jira.example.com") =
      { httpAgent := some (Agent.socks "socks5://sock.example:1080" true)
        httpsAgent := some (Agent.socks "socks5://sock.example:1080" true)
        proxy := some false } := by
  refine ⟨by decide, by decide, by decide, ?_⟩
  have h := (C1_socks_exclusive envSocksBoth "jira" (some "jira.example.com")).2
    (by decide) (by decide)
  exact h

/-- C3 (amended): each endpoint chain is an ordered first-truthy-wins
lookup, but the revisions differ from the claim: `getNetworkConfig`
resolves service-scoped, then global upper-case, then global lower-case
with no npm fallback; the `proxy.ts` revision resolves service-scoped,
then global upper-case, then the npm-config variable — the lower-case
global is not consulted; `part_000` uses one merged HTTPS-before-HTTP
chain.  Schemes are resolved independently. -/
theorem C3_amended_chains (env : Env) (pfx : String) :
    resolveHttpProxy env pfx =
      firstTruthy [env (pfx ++ "_HTTP_PROXY"), env "HTTP_PROXY", env "http_proxy"] ∧
    resolveHttpsProxy env pfx =
      firstTruthy [env (pfx ++ "_HTTPS_PROXY"), env "HTTPS_PROXY", env "https_proxy"] ∧
    resolveSocksProxy env pfx =
      firstTruthy [env (pfx ++ "_SOCKS_PROXY"), env "SOCKS_PROXY", env "socks_proxy"] ∧
    resolveNoProxy env pfx =
      firstTruthy [env (pfx ++ "_NO_PROXY"), env "NO_PROXY", env "no_proxy"] ∧
    resolveHttpProxyV1 env pfx =
      (firstTruthy [env (pfx ++ "_HTTP_PROXY"), env "HTTP_PROXY", env "npm_config_proxy"]).getD "" ∧
    resolveHttpsProxyV1 env pfx =
      (firstTruthy [env (pfx ++ "_HTTPS_PROXY"), env "HTTPS_PROXY", env "npm_config_https_proxy"]).getD "" ∧
    resolveNoProxyV1 env pfx =
      (firstTruthy [env (pfx ++ "_NO_PROXY"), env "NO_PROXY", env "npm_config_noproxy"]).getD "" ∧
    resolveProxyV0 env pfx =
      firstTruthy [env (pfx ++ "_HTTPS_PROXY"), env "HTTPS_PROXY", env "https_proxy",
        env (pfx ++ "_HTTP_PROXY"), env "HTTP_PROXY", env "http_proxy"] := by
  refine ⟨jsOr_chain3 _ _ _, jsOr_chain3 _ _ _, jsOr_chain3 _ _ _, jsOr_chain3 _ _ _,
    jsOrStr_chain3 _ _ _, jsOrStr_chain3 _ _ _, jsOrStr_chain3 _ _ _, jsOr_chain6 _ _ _ _ _ _⟩

/-- Counterexample to C3 as stated: with only `http_proxy` (lower case)
and `npm_config_proxy` set, the claimed chain picks the lower-case value
but the `proxy.ts` revision picks the npm value; and with only
`npm_config_proxy` set, `getNetworkConfig` resolves no HTTP endpoint at
all although the claim promises the npm fallback. -/
theorem C3_counterexample :
    resolveHttpProxyV1 envLowerNpm "JIRA" = "http://npm.example:3128" ∧
    claimFirstNonEmpty [envLowerNpm "JIRA_HTTP_PROXY", envLowerNpm "HTTP_PROXY",
      envLowerNpm "http_proxy", envLowerNpm "npm_config_proxy"] = some "http://lower.example:3128" ∧
    resolveHttpProxy envNpmOnly "JIRA" = none ∧
    claimFirstNonEmpty [envNpmOnly "JIRA_HTTP_PROXY", envNpmOnly "HTTP_PROXY",
      envNpmOnly "http_proxy", envNpmOnly "npm_config_proxy"] = some "http://npm.example:3128" := by
  decide

/-- C4 (amended): in the `proxy.ts` revision, for an https target the
HTTPS agent is built from the HTTPS endpoint, falling back to the HTTP
endpoint; for an http target an HTTP agent is built only when the HTTP
endpoint itself is set — an http target with only an HTTPS endpoint
yields no proxy agent at all. -/
theorem C4_scheme_selection (env : Env) (service : String) (targetUrl : String)
    (hostname? : Option String) (ssl : Bool)
    (hb : shouldBypassProxyV1 hostname? (resolveNoProxyV1 env (upperStr service)) = false) :
    (strStartsWith targetUrl "https" = true →
      ¬(resolveHttpsProxyV1 env (upperStr service) = "" ∧
        resolveHttpProxyV1 env (upperStr service) = "") →
      getProxyConfig env service targetUrl hostname? ssl =
        { httpAgent := none
          httpsAgent := some (Agent.httpsP
            (if resolveHttpsProxyV1 env (upperStr service) != "" then
               resolveHttpsProxyV1 env (upperStr service)
             else resolveHttpProxyV1 env (upperStr service)) ssl) }) ∧
    (strStartsWith targetUrl "https" = false →
      (resolveHttpProxyV1 env (upperStr service) ≠ "" →
        getProxyConfig env service targetUrl hostname? ssl =
          { httpAgent := some (Agent.httpP (resolveHttpProxyV1 env (upperStr service)))
            httpsAgent := none }) ∧
      (resolveHttpProxyV1 env (upperStr service) = "" →
        (getProxyConfig env service targetUrl hostname? ssl).httpAgent = none ∧
        ((getProxyConfig env service targetUrl hostname? ssl).httpsAgent = none ∨
         (getProxyConfig env service targetUrl hostname? ssl).httpsAgent =
           some (Agent.directHttps false)))) := by
  constructor
  · intro hhttps hne
    by_cases hhsp : resolveHttpsProxyV1 env (upperStr service) = ""
    · have hhp : resolveHttpProxyV1 env (upperStr service) ≠ "" := by
        intro hc; exact hne ⟨hhsp, hc⟩
      simp [getProxyConfig, hb, hhttps, hhsp, hhp]
    · simp [getProxyConfig, hb, hhttps, hhsp]
  · intro hhttp
    constructor
    · intro hp
      simp [getProxyConfig, hb, hhttp, hp]
    · intro hp0
      by_cases hhsp : resolveHttpsProxyV1 env (upperStr service) = ""
      · cases hssl : ssl <;> simp [getProxyConfig, hb, hhttp, hp0, hhsp]
      · simp [getProxyConfig, hb, hhttp, hp0, hhsp]

/-- Witness for the amended C4: an https target with only `HTTP_PROXY`
set gets an HTTPS proxy agent through the fallback. -/
theorem C4_witness :
    shouldBypassProxyV1 (some "x.example.com") (resolveNoProxyV1 envHttpOnly "JIRA") = false ∧
    strStartsWith "https://x.example.com" "https" = true ∧
    resolveHttpsProxyV1 envHttpOnly "JIRA" = "" ∧
    resolveHttpProxyV1 envHttpOnly "JIRA" = "http://up.example:8080" ∧
    getProxyConfig envHttpOnly "jira" "https://x.example.com" (some "x.example.com") true =
      { httpAgent := none
        httpsAgent := some (Agent.httpsP "http://up.example:8080" true) } := by
  refine ⟨by decide, by decide, by decide, by decide, ?_⟩
  have h := (C4_scheme_selection envHttpOnly "jira" "https://x.example.com"
    (some "x.example.com") true (by decide)).1 (by decide) (by decide)
  simpa using h

/-- Counterexample to C4 as stated: an http target with only
`HTTPS_PROXY` set resolves an endpoint but no proxy agent is
constructed. -/
theorem C4_counterexample :
    resolveHttpsProxyV1 envHttpsOnly "JIRA" = "http://hp.example:8080" ∧
    shouldBypassProxyV1 (some "x.example.com") (resolveNoProxyV1 envHttpsOnly "JIRA") = false ∧
    getProxyConfig envHttpsOnly "jira" "http://x.example.com" (some "x.example.com") true =
      { httpAgent := none, httpsAgent := none } := by
  decide

/-- C5: when NO_PROXY matches the target, neither resolver revision
installs any proxy agent, whatever proxy endpoints are configured; with
TLS verification disabled the direct TLS-override agent is still
installed, and with it enabled the configuration is empty. -/
theorem C5_bypass_no_proxy (env : Env) (service : String) (targetUrl : String)
    (hostname? : Option String) (ssl : Bool) :
    (shouldBypassProxy hostname? (resolveNoProxy env (upperStr service)) = true →
      (getNetworkConfig env service hostname?).hasProxyAgent = false ∧
      getNetworkConfig env service hostname? =
        (if sslVerifySetting env (upperStr service) then {}
         else { httpsAgent := some (Agent.directHttps false) })) ∧
    (shouldBypassProxyV1 hostname? (resolveNoProxyV1 env (upperStr service)) = true →
      (getProxyConfig env service targetUrl hostname? ssl).hasProxyAgent = false ∧
      getProxyConfig env service targetUrl hostname? ssl =
        (if ssl then {} else { httpsAgent := some (Agent.directHttps false) })) := by
  constructor
  · intro hb
    have hcfg := getNetworkConfig_noProxyBranch env service hostname?
      (by simp [hb]) (by simp [hb])
    refine ⟨?_, hcfg⟩
    rw [hcfg]
    by_cases hssl : sslVerifySetting env (upperStr service) <;>
      simp [hssl, ClientNetworkConfig.hasProxyAgent, optAgent, Agent.isProxyAgent]
  · intro hb
    have hcfg : getProxyConfig env service targetUrl hostname? ssl =
        (if ssl then {} else { httpsAgent := some (Agent.directHttps false) }) := by
      cases hssl : ssl <;> simp [getProxyConfig, hb, hssl]
    refine ⟨?_, hcfg⟩
    rw [hcfg]
    cases hssl : ssl <;>
      simp [ProxyConfig.hasProxyAgent, optAgent, Agent.isProxyAgent]

/-- Witness for C5: `JIRA_NO_PROXY=.internal.co` with a configured HTTPS
proxy and target host `jira.internal.co` yields the empty
configuration. -/
theorem C5_witness :
    shouldBypassProxy (some "jira.internal.co") (resolveNoProxy envBypass "JIRA") = true ∧
    truthy (resolveHttpsProxy envBypass "JIRA") = true ∧
    (getNetworkConfig envBypass "jira" (some "jira.internal.co")).hasProxyAgent = false ∧
    getNetworkConfig envBypass "jira" (some "jira.internal.co") = {} := by
  refine ⟨by decide, by decide, ?_, ?_⟩
  · exact ((C5_bypass_no_proxy envBypass "jira" "https://jira.internal.co"
      (some "jira.internal.co") true).1 (by decide)).1
  · have h := ((C5_bypass_no_proxy envBypass "jira" "https://jira.internal.co"
      (some "jira.internal.co") true).1 (by decide)).2
    simpa using h

/-- C6 (amended): every agent any resolver revision constructs carries a
non-empty endpoint string (empty endpoints are guarded), and the
resolvers are total functions that always return a configuration.
Malformed non-empty endpoints are not guarded (see the
counterexample). -/
theorem C6_empty_endpoint_guarded (env : Env) (service : String) (targetUrl : String)
    (hostname? : Option String) (ssl : Bool) :
    (getNetworkConfig env service hostname?).endpointsNonempty = true ∧
    (getProxyConfig env service targetUrl hostname? ssl).endpointsNonempty = true ∧
    (getProxyConfigV0 env service).endpointsNonempty = true := by
  refine ⟨?_, ?_, ?_⟩
  · by_cases hbp : shouldBypassProxy hostname? (resolveNoProxy env (upperStr service)) = true
    · have hcfg := getNetworkConfig_noProxyBranch env service hostname?
        (by simp [hbp]) (by simp [hbp])
      rw [hcfg]
      by_cases hssl : sslVerifySetting env (upperStr service) <;>
        simp [hssl, ClientNetworkConfig.endpointsNonempty, Agent.endpointNonempty]
    · have hbp2 : shouldBypassProxy hostname? (resolveNoProxy env (upperStr service)) = false := by
        simpa using hbp
      by_cases hs : truthy (resolveSocksProxy env (upperStr service)) = true
      · rw [getNetworkConfig_socks env service hostname? hs hbp2]
        simp [ClientNetworkConfig.endpointsNonempty, Agent.endpointNonempty,
          truthy_getD_ne _ hs, bne_iff_ne]
      · have hs2 : truthy (resolveSocksProxy env (upperStr service)) = false := by simpa using hs
        by_cases hp : (truthy (resolveHttpsProxy env (upperStr service))
            || truthy (resolveHttpProxy env (upperStr service))) = true
        · rw [getNetworkConfig_plainBranch env service hostname? hs2 hbp2 hp]
          by_cases hhp : truthy (resolveHttpProxy env (upperStr service)) = true
          all_goals by_cases hhps : truthy (jsOr (resolveHttpsProxy env (upperStr service))
            (resolveHttpProxy env (upperStr service))) = true
          · simp [ClientNetworkConfig.endpointsNonempty, Agent.endpointNonempty, hhp, hhps,
              truthy_getD_ne _ hhp, truthy_getD_ne _ hhps, bne_iff_ne]
          · simp [ClientNetworkConfig.endpointsNonempty, Agent.endpointNonempty, hhp, hhps,
              truthy_getD_ne _ hhp, bne_iff_ne]
          · simp [ClientNetworkConfig.endpointsNonempty, Agent.endpointNonempty, hhp, hhps,
              truthy_getD_ne _ hhps, bne_iff_ne]
          · simp [ClientNetworkConfig.endpointsNonempty, Agent.endpointNonempty, hhp, hhps]
        · have hp2 : (truthy (resolveHttpsProxy env (upperStr service))
              || truthy (resolveHttpProxy env (upperStr service))) = false := by simpa using hp
          have hcfg := getNetworkConfig_noProxyBranch env service hostname?
            (by simp [hs2]) (by simp [hp2])
          rw [hcfg]
          by_cases hssl : sslVerifySetting env (upperStr service) <;>
            simp [hssl, ClientNetworkConfig.endpointsNonempty, Agent.endpointNonempty]
  · by_cases hbp : shouldBypassProxyV1 hostname? (resolveNoProxyV1 env (upperStr service)) = true
    · cases hssl : ssl <;>
        simp [getProxyConfig, hbp, hssl, ProxyConfig.endpointsNonempty, Agent.endpointNonempty]
    · have hbp2 : shouldBypassProxyV1 hostname? (resolveNoProxyV1 env (upperStr service)) = false := by
        simpa using hbp
      by_cases hht : strStartsWith targetUrl "https" = true
      · by_cases h1 : resolveHttpsProxyV1 env (upperStr service) = ""
        · by_cases h2 : resolveHttpProxyV1 env (upperStr service) = ""
          · cases hssl : ssl <;>
              simp [getProxyConfig, hbp2, hht, h1, h2, hssl,
                ProxyConfig.endpointsNonempty, Agent.endpointNonempty]
          · simp [getProxyConfig, hbp2, hht, h1, h2,
              ProxyConfig.endpointsNonempty, Agent.endpointNonempty, bne_iff_ne]
        · simp [getProxyConfig, hbp2, hht, h1,
            ProxyConfig.endpointsNonempty, Agent.endpointNonempty, bne_iff_ne]
      · have hht2 : strStartsWith targetUrl "https" = false := by simpa using hht
        by_cases h2 : resolveHttpProxyV1 env (upperStr service) = ""
        · by_cases h1 : resolveHttpsProxyV1 env (upperStr service) = ""
          · cases hssl : ssl <;>
              simp [getProxyConfig, hbp2, hht2, h1, h2, hssl,
                ProxyConfig.endpointsNonempty, Agent.endpointNonempty]
          · simp [getProxyConfig, hbp2, hht2, h1, h2,
              ProxyConfig.endpointsNonempty, Agent.endpointNonempty, bne_iff_ne]
        · simp [getProxyConfig, hbp2, hht2, h2,
            ProxyConfig.endpointsNonempty, Agent.endpointNonempty, bne_iff_ne]
  · simp only [getProxyConfigV0]
    split
    · simp [ClientNetworkConfig.endpointsNonempty]
    · split
      · simp [ClientNetworkConfig.endpointsNonempty]
      · next hu =>
        simp [ClientNetworkConfig.endpointsNonempty, Agent.endpointNonempty, hu]

/-- Counterexample to C6 as stated: a malformed non-empty `HTTP_PROXY`
value is passed straight to the agent constructor — the claim promises
that no agent is constructed for that scheme. -/
theorem C6_counterexample :
    (getProxyConfig envMalformed "jira" "http://x.example.com" (some "x.example.com") true).httpAgent
      = some (Agent.httpP "not a url") := by decide

/-- C7: TLS verification is disabled exactly when the `<SVC>_SSL_VERIFY`
value is the string `false`; the setting depends only on that variable
(independent of proxy selection); and with verification disabled and no
proxy endpoint truthy, the configuration holds only the direct
TLS-override agent. -/
theorem C7_ssl_verify (env env2 : Env) (service : String) (hostname? : Option String) :
    (sslVerifySetting env (upperStr service) = false ↔
      env (upperStr service ++ "_SSL_VERIFY") = some "false") ∧
    (env (upperStr service ++ "_SSL_VERIFY") = env2 (upperStr service ++ "_SSL_VERIFY") →
      sslVerifySetting env (upperStr service) = sslVerifySetting env2 (upperStr service)) ∧
    (truthy (resolveSocksProxy env (upperStr service)) = false →
     (truthy (resolveHttpsProxy env (upperStr service))
       || truthy (resolveHttpProxy env (upperStr service))) = false →
     sslVerifySetting env (upperStr service) = false →
     getNetworkConfig env service hostname? =
       { httpsAgent := some (Agent.directHttps false) }) := by
  refine ⟨?_, ?_, ?_⟩
  · simp [sslVerifySetting]
  · intro h
    simp only [sslVerifySetting, h]
  · intro hs hp hssl
    have hcfg := getNetworkConfig_noProxyBranch env service hostname?
      (by simp [hs]) (by simp [hp])
    rw [hcfg, if_neg]
    simp [hssl]

/-- Witness for C7 with `JIRA_SSL_VERIFY=false` and no proxy set. -/
theorem C7_witness :
    truthy (resolveSocksProxy envSslOff "JIRA") = false ∧
    (truthy (resolveHttpsProxy envSslOff "JIRA") || truthy (resolveHttpProxy envSslOff "JIRA")) = false ∧
    sslVerifySetting envSslOff "JIRA" = false ∧
    getNetworkConfig envSslOff "jira" (some "jira.example.com") =
      { httpsAgent := some (Agent.directHttps false) } := by
  refine ⟨by decide, by decide, by decide, ?_⟩
  exact (C7_ssl_verify envSslOff envSslOff "jira" (some "jira.example.com")).2.2
    (by decide) (by decide) (by decide)

/-- C9 (amended): whenever the configuration contains a proxy agent
(SOCKS or HTTP(S)), `proxy: false` is set — in `getNetworkConfig` and in
the `part_000` resolver.  The direct TLS-override agent, however, is
installed without the flag (see the counterexample). -/
theorem C9_flag_with_proxy_agents (env : Env) (service : String) (hostname? : Option String) :
    ((getNetworkConfig env service hostname?).hasProxyAgent = true →
      (getNetworkConfig env service hostname?).proxy = some false) ∧
    ((getProxyConfigV0 env service).hasProxyAgent = true →
      (getProxyConfigV0 env service).proxy = some false) := by
  constructor
  · simp only [getNetworkConfig]
    split
    · intro _; rfl
    · split
      · intro _; rfl
      · split <;> simp [ClientNetworkConfig.hasProxyAgent, optAgent, Agent.isProxyAgent]
  · simp only [getProxyConfigV0]
    split
    · simp [ClientNetworkConfig.hasProxyAgent, optAgent, Agent.isProxyAgent]
    · split <;> simp [ClientNetworkConfig.hasProxyAgent, optAgent, Agent.isProxyAgent]

/-- Witness for the amended C9 at a SOCKS-configured environment. -/
theorem C9_witness :
    (getNetworkConfig envSocksBoth "jira" (some "jira.example.com")).hasProxyAgent = true ∧
    (getNetworkConfig envSocksBoth "jira" (some "jira.example.com")).proxy = some false := by
  refine ⟨by decide, ?_⟩
  exact (C9_flag_with_proxy_agents envSocksBoth "jira" (some "jira.example.com")).1 (by decide)

/-- Counterexample to C9 as stated: with `JIRA_SSL_VERIFY=false` and no
proxy, the configuration contains an explicit (direct TLS-override) agent
but the `proxy` flag stays undefined. -/
theorem C9_counterexample :
    (getNetworkConfig envSslOff "jira" (some "jira.example.com")).httpsAgent
      = some (Agent.directHttps false) ∧
    (getNetworkConfig envSslOff "jira" (some "jira.example.com")).proxy = none := by decide

/-- C10: with `READ_ONLY_MODE=true` every mutating client operation
throws its read-only error before any HTTP request, while all read
operations are unaffected by that variable. -/
theorem C10_read_only_gate (env : Env) (v : Option String)
    (jql pk it summ ik cb q ti ct pid sk2 : String) (sk : Option String)
    (mr lim st ver : Nat) :
    (env "READ_ONLY_MODE" = some "true" →
      jiraCreateIssue env pk it summ = .error "Cannot create issue: running in read-only mode" ∧
      jiraUpdateIssue env ik = .error "Cannot update issue: running in read-only mode" ∧
      jiraAddComment env ik cb = .error "Cannot add comment: running in read-only mode" ∧
      confluenceCreatePage env sk2 ti ct = .error "Cannot create page: running in read-only mode" ∧
      confluenceUpdatePage env pid ti ct ver = .error "Cannot update page: running in read-only mode") ∧
    jiraSearchIssues (setEnv env "READ_ONLY_MODE" v) jql mr = jiraSearchIssues env jql mr ∧
    jiraGetIssue (setEnv env "READ_ONLY_MODE" v) ik = jiraGetIssue env ik ∧
    jiraGetProjects (setEnv env "READ_ONLY_MODE" v) = jiraGetProjects env ∧
    confluenceSearch (setEnv env "READ_ONLY_MODE" v) q sk lim = confluenceSearch env q sk lim ∧
    confluenceGetPage (setEnv env "READ_ONLY_MODE" v) pid = confluenceGetPage env pid ∧
    confluenceGetSpaces (setEnv env "READ_ONLY_MODE" v) lim st = confluenceGetSpaces env lim st := by
  constructor
  · intro h
    have hro : readOnlyMode env = true := by simp [readOnlyMode, h]
    exact ⟨by simp [jiraCreateIssue, hro], by simp [jiraUpdateIssue, hro],
      by simp [jiraAddComment, hro], by simp [confluenceCreatePage, hro],
      by simp [confluenceUpdatePage, hro]⟩
  · have hset : setEnv env "READ_ONLY_MODE" v "JIRA_PROJECTS_FILTER"
        = env "JIRA_PROJECTS_FILTER" := by
      simp [setEnv]
    have hset2 : setEnv env "READ_ONLY_MODE" v "CONFLUENCE_SPACES_FILTER"
        = env "CONFLUENCE_SPACES_FILTER" := by
      simp [setEnv]
    refine ⟨?_, rfl, rfl, ?_, rfl, rfl⟩
    · simp [jiraSearchIssues, jiraSearchJql, hset]
    · simp [confluenceSearch, confluenceSearchCql, hset2]

/-- Witness for C10 in a read-only environment. -/
theorem C10_witness :
    envReadOnly "READ_ONLY_MODE" = some "true" ∧
    jiraCreateIssue envReadOnly "PROJ" "Task" "s" =
      .error "Cannot create issue: running in read-only mode" ∧
    confluenceUpdatePage envReadOnly "123" "t" "c" 3 =
      .error "Cannot update page: running in read-only mode" ∧
    jiraGetIssue envReadOnly "PROJ-1" = { method := "GET", path := "/rest/api/2/issue/PROJ-1" } := by
  refine ⟨by decide, ?_, ?_, by decide⟩
  · exact ((C10_read_only_gate envReadOnly none "" "PROJ" "Task" "s" "K" "" "" "t" "c" "123" "S"
      none 0 0 0 3).1 (by decide)).1
  · exact ((C10_read_only_gate envReadOnly none "" "PROJ" "Task" "s" "K" "" "" "t" "c" "123" "S"
      none 0 0 0 3).1 (by decide)).2.2.2.2
